import Mathlib

/-!
# Arc: bootstrap, frame loop and shutdown of `main` (src/RHI/src/main.cpp)

`main` is a straight-line sequence of calls into two external libraries (GLFW and
OpenGL) and two output streams.  The embedding records every such call, in program
order, as an `Event` of a trace.  The answers of the libraries are the inputs of the
program; they are collected in an `Env`.  The `while` loop need not terminate, so the
loop takes a bound on the number of evaluations of its condition; a run that reaches
the bound is reported with `exit = none` and with the trace produced so far.
-/

namespace Arc

/-- Names of the window hints set by `main` (GLFW macros, lines 21-24). -/
inductive Hint
  | GLFW_CONTEXT_VERSION_MAJOR
  | GLFW_CONTEXT_VERSION_MINOR
  | GLFW_OPENGL_PROFILE
  | GLFW_OPENGL_FORWARD_COMPAT
  deriving DecidableEq

/-- Values passed as second argument of `glfwWindowHint` (lines 21-24): an integer
literal or one of the two macros. -/
inductive HintValue
  | int (n : Int)
  | GLFW_OPENGL_CORE_PROFILE
  | GL_TRUE
  deriving DecidableEq

/-- Names queried through `glGetString` (lines 38-39). -/
inductive GLName
  | GL_VERSION
  | GL_RENDERER
  deriving DecidableEq

/-- Buffer masks passed to `glClear` (line 45). -/
inductive ClearMask
  | GL_COLOR_BUFFER_BIT
  deriving DecidableEq

/-- A decimal floating literal of the source, `digits / 10 ^ scale`
(`0.1f` is `⟨1, 1⟩`, `1.0f` is `⟨10, 1⟩`). -/
structure Dec where
  digits : Nat
  scale : Nat
  deriving DecidableEq

/-- The two output streams written by `main`. -/
inductive OStream
  | cout
  | cerr
  deriving DecidableEq

/-- One operand of a chain of `<<`: a string literal of the source, the string
returned by `glGetString name`, or `std::endl`. -/
inductive Item
  | lit (s : String)
  | glString (name : GLName) (s : String)
  | endl
  deriving DecidableEq

/-- One observable call of `main`, with its arguments and, where the program uses
it, its result.  A window pointer is a `Nat`, `0` being `nullptr`. -/
inductive Event
  | glfwInit (result : Bool)
  | glfwWindowHint (hint : Hint) (value : HintValue)
  | glfwCreateWindow (width height : Int) (title : String) (monitor share : Nat)
      (result : Nat)
  | glfwMakeContextCurrent (window : Nat)
  | glGetString (name : GLName) (result : String)
  | glfwWindowShouldClose (window : Nat) (result : Bool)
  | glClearColor (r g b a : Dec)
  | glClear (mask : ClearMask)
  | glfwSwapBuffers (window : Nat)
  | glfwPollEvents
  | glfwDestroyWindow (window : Nat)
  | glfwTerminate
  | write (stream : OStream) (item : Item)
  deriving DecidableEq

/-- The answers of the external libraries during one run: the result of `glfwInit()`,
the pointer returned by `glfwCreateWindow` (`0` is `nullptr`), the strings returned
by `glGetString` (non-null for the two names queried once a context is current), and
the answer of the `k`-th call (from `0`) of `glfwWindowShouldClose`. -/
structure Env where
  glfwInit : Bool
  glfwCreateWindow : Nat
  glGetString : GLName → String
  glfwWindowShouldClose : Nat → Bool

/-- The outcome of a run: the calls made, in order, and the value returned by
`main` (`none` when the loop is still running at the bound). -/
structure Run where
  trace : List Event
  exit : Option Int
  deriving DecidableEq

/-- Lines 14 and 21-27: `glfwInit()` answering true, the four window hints and the
call of `glfwCreateWindow` answering `window`. -/
def setup (window : Nat) : List Event :=
  [ .glfwInit true,
    .glfwWindowHint .GLFW_CONTEXT_VERSION_MAJOR (.int 4),
    .glfwWindowHint .GLFW_CONTEXT_VERSION_MINOR (.int 1),
    .glfwWindowHint .GLFW_OPENGL_PROFILE .GLFW_OPENGL_CORE_PROFILE,
    .glfwWindowHint .GLFW_OPENGL_FORWARD_COMPAT .GL_TRUE,
    .glfwCreateWindow 800 600 "Arc Engine" 0 0 window ]

/-- Lines 35-39: the context is made current and the two information lines are
written (operands of `<<` evaluated left to right). -/
def announce (env : Env) (window : Nat) : List Event :=
  [ .glfwMakeContextCurrent window,
    .write .cout (.lit "OpenGL Version: "),
    .glGetString .GL_VERSION (env.glGetString .GL_VERSION),
    .write .cout (.glString .GL_VERSION (env.glGetString .GL_VERSION)),
    .write .cout .endl,
    .write .cout (.lit "OpenGL Renderer: "),
    .glGetString .GL_RENDERER (env.glGetString .GL_RENDERER),
    .write .cout (.glString .GL_RENDERER (env.glGetString .GL_RENDERER)),
    .write .cout .endl ]

/-- Lines 44-51: the body of the loop. -/
def frame (window : Nat) : List Event :=
  [ .glClearColor ⟨1, 1⟩ ⟨1, 1⟩ ⟨2, 1⟩ ⟨10, 1⟩,
    .glClear .GL_COLOR_BUFFER_BIT,
    .glfwSwapBuffers window,
    .glfwPollEvents ]

/-- Lines 55-58: the cleanup after the loop and the closing message. -/
def cleanup (window : Nat) : List Event :=
  [ .glfwDestroyWindow window,
    .glfwTerminate,
    .write .cout (.lit "Window closed."),
    .write .cout .endl ]

/-- Lines 42-52: `while (!glfwWindowShouldClose(window)) { ... }`.  `fuel` bounds the
number of evaluations of the condition, `k` counts the evaluations already made.
Returns the calls made and whether the loop was left. -/
def mainLoop (env : Env) (window : Nat) : Nat → Nat → List Event × Bool
  | 0, _ => ([], false)
  | fuel + 1, k =>
    if !env.glfwWindowShouldClose k then
      let rest := mainLoop env window fuel (k + 1)
      (.glfwWindowShouldClose window false :: frame window ++ rest.1, rest.2)
    else
      ([.glfwWindowShouldClose window true], true)

/-- The function `main` of src/RHI/src/main.cpp. -/
def main (env : Env) (fuel : Nat) : Run :=
  if !env.glfwInit then
    { trace := [.glfwInit false,
                .write .cerr (.lit "Failed to init GLFW"), .write .cerr .endl],
      exit := some (-1) }
  else
    let window := env.glfwCreateWindow
    if window = 0 then
      { trace := setup window ++
          [.write .cerr (.lit "Failed to create window"), .write .cerr .endl,
           .glfwTerminate],
        exit := some (-1) }
    else
      let loop := mainLoop env window fuel 0
      if loop.2 then
        { trace := setup window ++ announce env window ++ loop.1 ++ cleanup window,
          exit := some 0 }
      else
        { trace := setup window ++ announce env window ++ loop.1,
          exit := none }

/-- The library entry points and the stream write, without arguments. -/
inductive Call
  | glfwInit
  | glfwWindowHint
  | glfwCreateWindow
  | glfwMakeContextCurrent
  | glGetString
  | glfwWindowShouldClose
  | glClearColor
  | glClear
  | glfwSwapBuffers
  | glfwPollEvents
  | glfwDestroyWindow
  | glfwTerminate
  | write
  deriving DecidableEq

/-- Which entry point an event is a call of. -/
def Event.call : Event → Call
  | .glfwInit _ => .glfwInit
  | .glfwWindowHint _ _ => .glfwWindowHint
  | .glfwCreateWindow _ _ _ _ _ _ => .glfwCreateWindow
  | .glfwMakeContextCurrent _ => .glfwMakeContextCurrent
  | .glGetString _ _ => .glGetString
  | .glfwWindowShouldClose _ _ => .glfwWindowShouldClose
  | .glClearColor _ _ _ _ => .glClearColor
  | .glClear _ => .glClear
  | .glfwSwapBuffers _ => .glfwSwapBuffers
  | .glfwPollEvents => .glfwPollEvents
  | .glfwDestroyWindow _ => .glfwDestroyWindow
  | .glfwTerminate => .glfwTerminate
  | .write _ _ => .write

/-- Number of calls of entry point `c` in a trace. -/
def calls (c : Call) (t : List Event) : Nat :=
  t.countP (fun e => e.call = c)

/-- The items written to stream `s` in a trace, in order. -/
def written (s : OStream) (t : List Event) : List Item :=
  t.filterMap (fun e =>
    match e with
    | .write s' item => if s' = s then some item else none
    | _ => none)

/-- The calls of `n` complete iterations of the loop: each is the close-flag check
answering false followed by the body. -/
def iterations (window : Nat) : Nat → List Event
  | 0 => []
  | n + 1 => .glfwWindowShouldClose window false :: frame window ++ iterations window n

/-- The window pointer passed to a call, for the calls that take one. -/
def Event.window? : Event → Option Nat
  | .glfwMakeContextCurrent window => some window
  | .glfwWindowShouldClose window _ => some window
  | .glfwSwapBuffers window => some window
  | .glfwDestroyWindow window => some window
  | _ => none

/-- Whether an event is a call into the graphics API. -/
def Event.isGraphics : Event → Bool
  | .glGetString _ _ => true
  | .glClearColor _ _ _ _ => true
  | .glClear _ => true
  | _ => false

/-- The condition on one call `e` made after the calls `acc`: a window pointer it
takes is the non-null pointer `window` returned by an earlier `glfwCreateWindow` and
not yet destroyed; a graphics call comes after `glfwMakeContextCurrent window` and
before any `glfwDestroyWindow`. -/
def Scoped (window : Nat) (acc : List Event) (e : Event) : Prop :=
  (∀ h, e.window? = some h →
    h ≠ 0 ∧ h = window ∧ .glfwCreateWindow 800 600 "Arc Engine" 0 0 h ∈ acc ∧
      calls .glfwDestroyWindow acc = 0) ∧
  (e.isGraphics = true →
    .glfwMakeContextCurrent window ∈ acc ∧ calls .glfwDestroyWindow acc = 0)

/-- Every call of `t`, made after `acc` and the calls of `t` before it, satisfies
`Q`. -/
def Before (Q : List Event → Event → Prop) (acc t : List Event) : Prop :=
  ∀ pre e post, t = pre ++ e :: post → Q (acc ++ pre) e

/-- After the calls `acc` the window `window` is created, current and not
destroyed. -/
structure Live (window : Nat) (acc : List Event) : Prop where
  created : .glfwCreateWindow 800 600 "Arc Engine" 0 0 window ∈ acc
  current : .glfwMakeContextCurrent window ∈ acc
  kept : calls .glfwDestroyWindow acc = 0

/-- An environment in which `glfwInit` fails. -/
def envInitFails : Env :=
  ⟨false, 0, fun _ => "", fun _ => true⟩

/-- An environment in which `glfwInit` succeeds and `glfwCreateWindow` returns
`nullptr`. -/
def envNoWindow : Env :=
  ⟨true, 0, fun _ => "", fun _ => true⟩

/-- An environment in which the window at address `7` is created and the close flag
is seen set at the third check, after two frames. -/
def envTwoFrames : Env :=
  ⟨true, 7, fun n => match n with
    | .GL_VERSION => "4.1"
    | .GL_RENDERER => "Apple M1", fun k => decide (2 ≤ k)⟩

/-! ## The three shapes of a run -/

theorem main_of_init_failed (env : Env) (fuel : Nat) (h : env.glfwInit = false) :
    main env fuel =
      { trace := [.glfwInit false,
                  .write .cerr (.lit "Failed to init GLFW"), .write .cerr .endl],
        exit := some (-1) } := by
  simp [main, h]

theorem main_of_window_failed (env : Env) (fuel : Nat) (h : env.glfwInit = true)
    (hw : env.glfwCreateWindow = 0) :
    main env fuel =
      { trace := setup 0 ++
          [.write .cerr (.lit "Failed to create window"), .write .cerr .endl,
           .glfwTerminate],
        exit := some (-1) } := by
  simp [main, h, hw]

theorem main_of_window (env : Env) (fuel : Nat) (h : env.glfwInit = true)
    (hw : env.glfwCreateWindow ≠ 0) :
    main env fuel =
      if (mainLoop env env.glfwCreateWindow fuel 0).2 then
        { trace := setup env.glfwCreateWindow ++ announce env env.glfwCreateWindow ++
            (mainLoop env env.glfwCreateWindow fuel 0).1 ++ cleanup env.glfwCreateWindow,
          exit := some 0 }
      else
        { trace := setup env.glfwCreateWindow ++ announce env env.glfwCreateWindow ++
            (mainLoop env env.glfwCreateWindow fuel 0).1,
          exit := none } := by
  simp [main, h, hw]

/-- While every answer is false the loop keeps running: `fuel` checks give `fuel`
complete iterations. -/
theorem mainLoop_running (env : Env) (window : Nat) :
    ∀ fuel k, (∀ i, i < fuel → env.glfwWindowShouldClose (k + i) = false) →
      mainLoop env window fuel k = (iterations window fuel, false) := by
  intro fuel
  induction fuel with
  | zero => intro k _; rfl
  | succ fuel ih =>
    intro k h
    have h0 := h 0 (Nat.succ_pos _)
    have ih' := ih (k + 1) (fun i hi => by
      have := h (i + 1) (Nat.succ_lt_succ hi)
      rwa [show k + 1 + i = k + (i + 1) by omega])
    simp only [Nat.add_zero] at h0
    simp [mainLoop, h0, ih', iterations]

/-- After `n` false answers and one true answer the loop is left, given more than
`n` checks. -/
theorem mainLoop_closed (env : Env) (window : Nat) :
    ∀ n fuel k, (∀ i, i < n → env.glfwWindowShouldClose (k + i) = false) →
      env.glfwWindowShouldClose (k + n) = true → n < fuel →
      mainLoop env window fuel k =
        (iterations window n ++ [.glfwWindowShouldClose window true], true) := by
  intro n
  induction n with
  | zero =>
    intro fuel k _ ht hf
    obtain ⟨fuel, rfl⟩ := Nat.exists_eq_succ_of_ne_zero (Nat.pos_iff_ne_zero.mp hf)
    simp only [Nat.add_zero] at ht
    simp [mainLoop, ht, iterations]
  | succ n ih =>
    intro fuel k h ht hf
    obtain ⟨fuel, rfl⟩ := Nat.exists_eq_succ_of_ne_zero (Nat.not_eq_zero_of_lt hf)
    have h0 := h 0 (Nat.succ_pos _)
    simp only [Nat.add_zero] at h0
    have ih' := ih fuel (k + 1) (fun i hi => by
      have := h (i + 1) (Nat.succ_lt_succ hi)
      rwa [show k + 1 + i = k + (i + 1) by omega])
      (by rwa [show k + 1 + n = k + (n + 1) by omega]) (Nat.lt_of_succ_lt_succ hf)
    simp [mainLoop, h0, ih', iterations]

/-- Every bounded run of the loop is one of the two shapes above. -/
theorem mainLoop_cases (env : Env) (window : Nat) (fuel k : Nat) :
    ((∀ i, i < fuel → env.glfwWindowShouldClose (k + i) = false) ∧
      mainLoop env window fuel k = (iterations window fuel, false)) ∨
    (∃ n, n < fuel ∧ (∀ i, i < n → env.glfwWindowShouldClose (k + i) = false) ∧
      env.glfwWindowShouldClose (k + n) = true ∧
      mainLoop env window fuel k =
        (iterations window n ++ [.glfwWindowShouldClose window true], true)) := by
  by_cases hall : ∀ i, i < fuel → env.glfwWindowShouldClose (k + i) = false
  · exact Or.inl ⟨hall, mainLoop_running env window fuel k hall⟩
  · right
    have hex : ∃ n, n < fuel ∧ env.glfwWindowShouldClose (k + n) = true := by
      by_contra hne
      apply hall
      intro i hi
      by_contra hi'
      exact hne ⟨i, hi, by simpa using hi'⟩
    classical
    refine ⟨Nat.find hex, (Nat.find_spec hex).1, ?_, (Nat.find_spec hex).2, ?_⟩
    · intro i hi
      have := Nat.find_min hex hi
      by_contra hi'
      exact this ⟨lt_trans hi (Nat.find_spec hex).1, by simpa using hi'⟩
    · apply mainLoop_closed env window _ fuel k _ (Nat.find_spec hex).2 (Nat.find_spec hex).1
      intro i hi
      have := Nat.find_min hex hi
      by_contra hi'
      exact this ⟨lt_trans hi (Nat.find_spec hex).1, by simpa using hi'⟩

theorem calls_append (c : Call) (s t : List Event) :
    calls c (s ++ t) = calls c s + calls c t := by
  simp [calls, List.countP_append]

theorem calls_iterations (c : Call) (window : Nat) (n : Nat) :
    calls c (iterations window n) =
      n * calls c (.glfwWindowShouldClose window false :: frame window) := by
  induction n with
  | zero => simp [iterations, calls]
  | succ n ih =>
    have : iterations window (n + 1) =
        (.glfwWindowShouldClose window false :: frame window) ++ iterations window n := rfl
    rw [this, calls_append, ih]
    ring

/-- The loop is left within `fuel` checks exactly when one of the first `fuel`
answers is true. -/
theorem mainLoop_left_iff (env : Env) (window : Nat) (fuel k : Nat) :
    (mainLoop env window fuel k).2 = true ↔
      ∃ i, i < fuel ∧ env.glfwWindowShouldClose (k + i) = true := by
  rcases mainLoop_cases env window fuel k with ⟨hall, heq⟩ | ⟨n, hn, _, ht, heq⟩
  · rw [heq]
    constructor
    · intro h; cases h
    · rintro ⟨i, hi, hti⟩
      rw [hall i hi] at hti
      cases hti
  · rw [heq]
    exact ⟨fun _ => ⟨n, hn, ht⟩, fun _ => rfl⟩

/-- A split of `s ++ t` at an element that no element of `s` resembles lies in `t`. -/
theorem split_skip {α : Type} (trig : α → Prop) (s t pre post : List α) (x : α)
    (hs : ∀ y, y ∈ s → ¬ trig y) (h : s ++ t = pre ++ x :: post) (hx : trig x) :
    ∃ mid, pre = s ++ mid ∧ t = mid ++ x :: post := by
  induction s generalizing pre with
  | nil => exact ⟨pre, rfl, h⟩
  | cons a s ih =>
    cases pre with
    | nil =>
      simp only [List.cons_append, List.nil_append, List.cons.injEq] at h
      exact absurd (h.1 ▸ hx) (hs a (List.mem_cons_self _ _))
    | cons b pre =>
      simp only [List.cons_append, List.cons.injEq] at h
      obtain ⟨mid, hmid, ht⟩ := ih pre (fun y hy => hs y (List.mem_cons_of_mem _ hy)) h.2
      exact ⟨mid, by rw [h.1, hmid]; rfl, ht⟩

theorem mem_of_split {α : Type} {t pre post : List α} {x : α} (h : t = pre ++ x :: post) :
    x ∈ t := by
  rw [h]
  exact List.mem_append_right _ (List.mem_cons_self _ _)

/-- The trace of a run in which the window was created: the bootstrap calls, some
complete iterations, and either nothing more (the bound was reached) or the check
answering true followed by the cleanup. -/
theorem main_trace_shape (env : Env) (fuel : Nat) (hinit : env.glfwInit = true)
    (hwin : env.glfwCreateWindow ≠ 0) :
    ∃ n tail, n ≤ fuel ∧
      (main env fuel).trace = setup env.glfwCreateWindow ++
        announce env env.glfwCreateWindow ++ (iterations env.glfwCreateWindow n ++ tail) ∧
      ((tail = [] ∧ (main env fuel).exit = none ∧ n = fuel) ∨
       (tail = .glfwWindowShouldClose env.glfwCreateWindow true ::
            cleanup env.glfwCreateWindow ∧ (main env fuel).exit = some 0 ∧ n < fuel)) := by
  rw [main_of_window env fuel hinit hwin]
  rcases mainLoop_cases env env.glfwCreateWindow fuel 0 with ⟨_, heq⟩ | ⟨n, hn, _, _, heq⟩
  · exact ⟨fuel, [], le_rfl, by simp [heq], Or.inl ⟨rfl, by simp [heq], rfl⟩⟩
  · exact ⟨n, _, hn.le, by simp [heq], Or.inr ⟨rfl, by simp [heq], hn⟩⟩

/-- What follows a close-flag check answering false inside the loop: the body, then
the remaining iterations and the tail. -/
theorem iterations_after_check (window : Nat) (tail : List Event)
    (htail : tail = [] ∨ tail = .glfwWindowShouldClose window true :: cleanup window) :
    ∀ n pre w post,
      iterations window n ++ tail = pre ++ .glfwWindowShouldClose w false :: post →
      ∃ m, w = window ∧ post = frame window ++ (iterations window m ++ tail) := by
  intro n
  induction n with
  | zero =>
    intro pre w post h
    have hmem := mem_of_split h
    rcases htail with rfl | rfl
    · simp [iterations] at hmem
    · simp [iterations, cleanup] at hmem
  | succ n ih =>
    intro pre w post h
    have hunfold : iterations window (n + 1) ++ tail =
        .glfwWindowShouldClose window false ::
          (frame window ++ (iterations window n ++ tail)) := by
      simp [iterations]
    rw [hunfold] at h
    cases pre with
    | nil =>
      simp only [List.nil_append, List.cons.injEq, Event.glfwWindowShouldClose.injEq,
        and_true] at h
      exact ⟨n, h.1.symm, h.2.symm⟩
    | cons b pre =>
      simp only [List.cons_append, List.cons.injEq] at h
      obtain ⟨mid, _, hmid⟩ := split_skip (fun e => e.call = .glfwWindowShouldClose)
        (frame window) _ pre post _ (by simp [frame, Event.call]) h.2 rfl
      exact ih mid w post hmid

/-- The remaining iterations and the tail are empty or start with a close-flag
check. -/
theorem iterations_tail_head (window : Nat) (tail : List Event)
    (htail : tail = [] ∨ tail = .glfwWindowShouldClose window true :: cleanup window)
    (m : Nat) :
    (iterations window m ++ tail = [] ∧ tail = []) ∨
      ∃ b rest, iterations window m ++ tail = .glfwWindowShouldClose window b :: rest := by
  cases m with
  | zero =>
    rcases htail with rfl | rfl
    · exact Or.inl ⟨rfl, rfl⟩
    · exact Or.inr ⟨true, _, rfl⟩
  | succ m => exact Or.inr ⟨false, _, rfl⟩

theorem mem_iterations (window : Nat) (n : Nat) (y : Event)
    (hy : y ∈ iterations window n) :
    y = .glfwWindowShouldClose window false ∨ y ∈ frame window := by
  induction n with
  | zero => exact absurd hy (List.not_mem_nil y)
  | succ n ih =>
    simp only [iterations, List.mem_cons, List.mem_append] at hy
    rcases hy with (h | h) | h
    · exact Or.inl h
    · exact Or.inr h
    · exact ih h

/-- The calls made before the loop is left are the bootstrap calls and the loop
calls. -/
theorem mem_before_exit (env : Env) (window : Nat) (n : Nat) (y : Event)
    (hy : y ∈ setup window ++ announce env window ++ iterations window n) :
    y ∈ setup window ∨ y ∈ announce env window ∨
      y = .glfwWindowShouldClose window false ∨ y ∈ frame window := by
  simp only [List.mem_append] at hy
  rcases hy with (h | h) | h
  · exact Or.inl h
  · exact Or.inr (Or.inl h)
  · exact Or.inr (Or.inr (mem_iterations window n y h))

theorem written_append (o : OStream) (s t : List Event) :
    written o (s ++ t) = written o s ++ written o t := by
  simp [written, List.filterMap_append]

theorem written_iterations (o : OStream) (window : Nat) (n : Nat) :
    written o (iterations window n) = [] := by
  induction n with
  | zero => rfl
  | succ n ih =>
    have : iterations window (n + 1) =
        (.glfwWindowShouldClose window false :: frame window) ++ iterations window n := rfl
    rw [this, written_append, ih]
    rfl

/-- A run in which the window was created and one of the first `fuel` answers is
true: the bootstrap, the iterations before the first true answer, the check
answering true and the cleanup; `main` returns 0. -/
theorem main_of_close_request (env : Env) (fuel : Nat) (hinit : env.glfwInit = true)
    (hwin : env.glfwCreateWindow ≠ 0)
    (hclose : ∃ i, i < fuel ∧ env.glfwWindowShouldClose i = true) :
    ∃ n, n < fuel ∧ main env fuel =
      { trace := setup env.glfwCreateWindow ++ announce env env.glfwCreateWindow ++
          (iterations env.glfwCreateWindow n ++
            .glfwWindowShouldClose env.glfwCreateWindow true ::
              cleanup env.glfwCreateWindow),
        exit := some 0 } := by
  rw [main_of_window env fuel hinit hwin]
  rcases mainLoop_cases env env.glfwCreateWindow fuel 0 with ⟨hall, _⟩ | ⟨n, hn, _, _, heq⟩
  · obtain ⟨i, hi, ht⟩ := hclose
    have := hall i hi
    rw [Nat.zero_add, ht] at this
    cases this
  · exact ⟨n, hn, by simp [heq]⟩

/-- Splitting a trace at its only call of `c`. -/
theorem split_unique {α : Type} (trig : α → Prop) (u v pre post : List α) (d x : α)
    (hu : ∀ y, y ∈ u → ¬ trig y) (hv : ∀ y, y ∈ v → ¬ trig y)
    (h : u ++ d :: v = pre ++ x :: post) (hx : trig x) :
    pre = u ∧ x = d ∧ post = v := by
  obtain ⟨mid, hpre, hmid⟩ := split_skip trig u (d :: v) pre post x hu h hx
  cases mid with
  | nil =>
    simp only [List.nil_append, List.cons.injEq] at hmid
    exact ⟨by simpa using hpre, hmid.1.symm, hmid.2.symm⟩
  | cons a mid =>
    simp only [List.cons_append, List.cons.injEq] at hmid
    exact absurd hx (hv x (mem_of_split hmid.2))

theorem call_before_exit (env : Env) (window : Nat) (n : Nat) (y : Event)
    (hy : y ∈ setup window ++ announce env window ++ iterations window n) :
    y.call ≠ .glfwDestroyWindow ∧ y.call ≠ .glfwTerminate := by
  rcases mem_before_exit env window n y hy with h | h | h | h
  · simp [setup] at h
    rcases h with rfl | rfl | rfl | rfl | rfl | rfl <;> simp [Event.call]
  · simp [announce] at h
    rcases h with rfl | rfl | rfl | rfl | rfl | rfl | rfl | rfl | rfl <;> simp [Event.call]
  · simp [h, Event.call]
  · simp [frame] at h
    rcases h with rfl | rfl | rfl | rfl <;> simp [Event.call]

theorem before_nil (Q : List Event → Event → Prop) (acc : List Event) :
    Before Q acc [] := by
  intro pre e post h
  cases pre <;> cases h

theorem before_cons {Q : List Event → Event → Prop} {acc t : List Event} {a : Event}
    (h0 : Q acc a) (ht : Before Q (acc ++ [a]) t) : Before Q acc (a :: t) := by
  intro pre e post h
  cases pre with
  | nil =>
    simp only [List.nil_append, List.cons.injEq] at h
    rw [← h.1]
    simpa using h0
  | cons b pre =>
    simp only [List.cons_append, List.cons.injEq] at h
    have := ht pre e post h.2
    rw [h.1] at this
    simpa using this

theorem scoped_of_quiet (window : Nat) (acc : List Event) (e : Event)
    (hw : e.window? = none) (hg : e.isGraphics = false) : Scoped window acc e := by
  constructor
  · intro h he
    rw [hw] at he
    cases he
  · intro he
    rw [hg] at he
    cases he

theorem scoped_of_live {window : Nat} {acc : List Event} (hwin : window ≠ 0)
    (hl : Live window acc) (e : Event) (he : ∀ h, e.window? = some h → h = window) :
    Scoped window acc e := by
  constructor
  · intro h hh
    have := he h hh
    subst this
    exact ⟨hwin, rfl, hl.created, hl.kept⟩
  · intro _
    exact ⟨hl.current, hl.kept⟩

theorem live_snoc {window : Nat} {acc : List Event} (hl : Live window acc) (a : Event)
    (ha : a.call ≠ .glfwDestroyWindow) : Live window (acc ++ [a]) := by
  refine ⟨List.mem_append_left _ hl.created, List.mem_append_left _ hl.current, ?_⟩
  rw [calls_append, hl.kept]
  simp [calls, ha]

/-- Calls that take no window and are not graphics calls satisfy `Scoped` wherever
they stand. -/
theorem before_quiet (window : Nat) (t : List Event) :
    ∀ (l acc : List Event), (∀ e, e ∈ l → e.window? = none ∧ e.isGraphics = false) →
      Before (Scoped window) (acc ++ l) t → Before (Scoped window) acc (l ++ t) := by
  intro l
  induction l with
  | nil => intro acc _ h; simpa using h
  | cons a l ih =>
    intro acc hl h
    have ha := hl a (List.mem_cons_self _ _)
    refine before_cons (scoped_of_quiet window acc a ha.1 ha.2) ?_
    refine ih (acc ++ [a]) (fun e he => hl e (List.mem_cons_of_mem _ he)) ?_
    simpa using h

/-- While the window is live, calls other than `glfwDestroyWindow` that take no
other window satisfy `Scoped` and keep the window live. -/
theorem before_live (window : Nat) (hwin : window ≠ 0) (t : List Event)
    (ht : ∀ acc, Live window acc → Before (Scoped window) acc t) :
    ∀ (l acc : List Event),
      (∀ e, e ∈ l → e.call ≠ .glfwDestroyWindow ∧ ∀ h, e.window? = some h → h = window) →
      Live window acc → Before (Scoped window) acc (l ++ t) := by
  intro l
  induction l with
  | nil => intro acc _ h; simpa using ht acc h
  | cons a l ih =>
    intro acc hl h
    have ha := hl a (List.mem_cons_self _ _)
    refine before_cons (scoped_of_live hwin h a ha.2) ?_
    exact ih (acc ++ [a]) (fun e he => hl e (List.mem_cons_of_mem _ he)) (live_snoc h a ha.1)

/-- The end of a run satisfies `Scoped` once the window is live. -/
theorem before_tail (window : Nat) (hwin : window ≠ 0) (tail : List Event)
    (htail : tail = [] ∨ tail = .glfwWindowShouldClose window true :: cleanup window)
    (acc : List Event) (hl : Live window acc) : Before (Scoped window) acc tail := by
  rcases htail with rfl | rfl
  · exact before_nil _ _
  · have hrest := before_quiet window []
      [.glfwTerminate, .write .cout (.lit "Window closed."), .write .cout .endl]
      (acc ++ [.glfwWindowShouldClose window true] ++ [.glfwDestroyWindow window])
      (by
        intro e he
        simp at he
        rcases he with rfl | rfl | rfl <;> exact ⟨rfl, rfl⟩)
      (before_nil _ _)
    simp only [List.append_nil] at hrest
    refine before_cons (scoped_of_live hwin hl _ ?_) (before_cons ?_ hrest)
    · intro h hh
      simp only [Event.window?, Option.some.injEq] at hh
      exact hh.symm
    · refine scoped_of_live hwin (live_snoc hl _ (by simp [Event.call])) _ ?_
      intro h hh
      simp only [Event.window?, Option.some.injEq] at hh
      exact hh.symm

/-! ## Claims -/

/-- C1: when `glfwInit` succeeds and `glfwCreateWindow` returns null, `glfwTerminate`
is called exactly once, `glfwDestroyWindow` and `glfwMakeContextCurrent` are never
called, no loop call is made (no clear, swap, poll or close-flag check), and `main`
returns a nonzero value. -/
theorem C1_window_creation_failed (env : Env) (fuel : Nat)
    (hinit : env.glfwInit = true) (hwin : env.glfwCreateWindow = 0) :
    calls .glfwTerminate (main env fuel).trace = 1 ∧
    calls .glfwDestroyWindow (main env fuel).trace = 0 ∧
    calls .glfwMakeContextCurrent (main env fuel).trace = 0 ∧
    calls .glClearColor (main env fuel).trace = 0 ∧
    calls .glClear (main env fuel).trace = 0 ∧
    calls .glfwSwapBuffers (main env fuel).trace = 0 ∧
    calls .glfwPollEvents (main env fuel).trace = 0 ∧
    calls .glfwWindowShouldClose (main env fuel).trace = 0 ∧
    ∃ code, (main env fuel).exit = some code ∧ code ≠ 0 := by
  rw [main_of_window_failed env fuel hinit hwin]
  refine ⟨rfl, rfl, rfl, rfl, rfl, rfl, rfl, rfl, -1, rfl, by decide⟩

theorem C1_window_creation_failed_witness :
    envNoWindow.glfwInit = true ∧ envNoWindow.glfwCreateWindow = 0 ∧
    calls .glfwTerminate (main envNoWindow 3).trace = 1 ∧
    calls .glfwDestroyWindow (main envNoWindow 3).trace = 0 ∧
    (main envNoWindow 3).exit = some (-1) := by
  have h := C1_window_creation_failed envNoWindow 3 rfl rfl
  exact ⟨rfl, rfl, h.1, h.2.1, rfl⟩

/-- C2, as stated, fails: in a run in which `glfwInit` fails, `glfwTerminate` is not
called at all. -/
theorem C2_counterexample :
    envInitFails.glfwInit = false ∧
    ¬ (calls .glfwCreateWindow (main envInitFails 1).trace = 0 ∧
       calls .glfwMakeContextCurrent (main envInitFails 1).trace = 0 ∧
       calls .glfwWindowShouldClose (main envInitFails 1).trace = 0 ∧
       1 ≤ calls .glfwTerminate (main envInitFails 1).trace ∧
       calls .glfwDestroyWindow (main envInitFails 1).trace = 0 ∧
       ∃ code, (main envInitFails 1).exit = some code ∧ code ≠ 0) := by
  refine ⟨rfl, ?_⟩
  rintro ⟨-, -, -, h, -⟩
  revert h
  decide

/-- C2, amended: when `glfwInit` fails, the run consists of that call and the
message on the error stream; `glfwCreateWindow` and `glfwMakeContextCurrent` are
never called, no loop call is made, no shutdown step is performed (neither
`glfwTerminate` nor `glfwDestroyWindow`), and `main` returns a nonzero value. -/
theorem C2_init_failed (env : Env) (fuel : Nat) (hinit : env.glfwInit = false) :
    (main env fuel).trace =
      [.glfwInit false, .write .cerr (.lit "Failed to init GLFW"), .write .cerr .endl] ∧
    calls .glfwCreateWindow (main env fuel).trace = 0 ∧
    calls .glfwMakeContextCurrent (main env fuel).trace = 0 ∧
    calls .glfwWindowShouldClose (main env fuel).trace = 0 ∧
    calls .glClearColor (main env fuel).trace = 0 ∧
    calls .glClear (main env fuel).trace = 0 ∧
    calls .glfwSwapBuffers (main env fuel).trace = 0 ∧
    calls .glfwPollEvents (main env fuel).trace = 0 ∧
    calls .glfwTerminate (main env fuel).trace = 0 ∧
    calls .glfwDestroyWindow (main env fuel).trace = 0 ∧
    ∃ code, (main env fuel).exit = some code ∧ code ≠ 0 := by
  rw [main_of_init_failed env fuel hinit]
  refine ⟨rfl, rfl, rfl, rfl, rfl, rfl, rfl, rfl, rfl, rfl, -1, rfl, by decide⟩

theorem C2_init_failed_witness :
    envInitFails.glfwInit = false ∧
    calls .glfwTerminate (main envInitFails 1).trace = 0 ∧
    (main envInitFails 1).exit = some (-1) := by
  have h := C2_init_failed envInitFails 1 rfl
  exact ⟨rfl, h.2.2.2.2.2.2.2.2.1, rfl⟩

/-- C9: when `glfwInit` fails, `main` returns a nonzero value right after the failed
call (the only library call of the run is that `glfwInit`, followed by the message on
the error stream); no window or context is created and `glfwDestroyWindow` is not
attempted. -/
theorem C9_init_failed_exits_at_once (env : Env) (fuel : Nat)
    (hinit : env.glfwInit = false) :
    (∃ code, (main env fuel).exit = some code ∧ code ≠ 0) ∧
    (main env fuel).trace.head? = some (.glfwInit false) ∧
    (main env fuel).trace.filter (fun e => e.call ≠ .write) = [.glfwInit false] ∧
    (∀ e, e ∈ (main env fuel).trace → e.call = .write → ∃ item, e = .write .cerr item) ∧
    calls .glfwCreateWindow (main env fuel).trace = 0 ∧
    calls .glfwMakeContextCurrent (main env fuel).trace = 0 ∧
    calls .glfwDestroyWindow (main env fuel).trace = 0 := by
  rw [main_of_init_failed env fuel hinit]
  refine ⟨⟨-1, rfl, by decide⟩, rfl, by simp [Event.call], ?_, rfl, rfl, rfl⟩
  intro e he hc
  simp only [List.mem_cons, List.mem_singleton, List.not_mem_nil, or_false] at he
  rcases he with rfl | rfl | rfl
  · cases hc
  · exact ⟨_, rfl⟩
  · exact ⟨_, rfl⟩

theorem C9_init_failed_exits_at_once_witness :
    envInitFails.glfwInit = false ∧
    (main envInitFails 2).trace.filter (fun e => e.call ≠ .write) = [.glfwInit false] ∧
    calls .glfwDestroyWindow (main envInitFails 2).trace = 0 := by
  have h := C9_init_failed_exits_at_once envInitFails 2 rfl
  exact ⟨rfl, h.2.2.1, h.2.2.2.2.2.2⟩

/-- C6: `main` returns 0 exactly when `glfwInit` and `glfwCreateWindow` both succeed
and the loop is left on a close request; when `glfwInit` fails or the window is not
created it returns -1, writes one message followed by `endl` to the error stream and
writes nothing to standard output; a nonzero value returned by `main` is always the
negative value -1. -/
theorem C6_exit_codes (env : Env) (fuel : Nat) :
    ((main env fuel).exit = some 0 ↔
      env.glfwInit = true ∧ env.glfwCreateWindow ≠ 0 ∧
        ∃ i, i < fuel ∧ env.glfwWindowShouldClose i = true) ∧
    (env.glfwInit = false →
      (main env fuel).exit = some (-1) ∧
      written .cerr (main env fuel).trace = [.lit "Failed to init GLFW", .endl] ∧
      written .cout (main env fuel).trace = []) ∧
    (env.glfwInit = true → env.glfwCreateWindow = 0 →
      (main env fuel).exit = some (-1) ∧
      written .cerr (main env fuel).trace = [.lit "Failed to create window", .endl] ∧
      written .cout (main env fuel).trace = []) ∧
    (∀ code, (main env fuel).exit = some code → code ≠ 0 → code = -1 ∧ code < 0) := by
  refine ⟨?_, ?_, ?_, ?_⟩
  · cases hinit : env.glfwInit with
    | false =>
      rw [main_of_init_failed env fuel hinit]
      simp
    | true =>
      by_cases hw : env.glfwCreateWindow = 0
      · rw [main_of_window_failed env fuel hinit hw]
        simp [hw]
      · rw [main_of_window env fuel hinit hw]
        have hiff := mainLoop_left_iff env env.glfwCreateWindow fuel 0
        simp only [Nat.zero_add] at hiff
        cases hl : (mainLoop env env.glfwCreateWindow fuel 0).2 with
        | true =>
          rw [hl] at hiff
          simp only [if_true, true_and]
          exact ⟨fun _ => ⟨hw, hiff.mp rfl⟩, fun _ => trivial⟩
        | false =>
          rw [hl] at hiff
          simp only [Bool.false_eq_true, if_false, true_and]
          constructor
          · intro h; cases h
          · rintro ⟨-, h⟩
            exact absurd (hiff.mpr h) (by simp)
  · intro hinit
    rw [main_of_init_failed env fuel hinit]
    exact ⟨rfl, rfl, rfl⟩
  · intro hinit hw
    rw [main_of_window_failed env fuel hinit hw]
    exact ⟨rfl, rfl, rfl⟩
  · intro code hcode hne
    cases hinit : env.glfwInit with
    | false =>
      rw [main_of_init_failed env fuel hinit] at hcode
      simp only [Option.some.injEq] at hcode
      subst hcode
      decide
    | true =>
      by_cases hw : env.glfwCreateWindow = 0
      · rw [main_of_window_failed env fuel hinit hw] at hcode
        simp only [Option.some.injEq] at hcode
        subst hcode
        decide
      · obtain ⟨n, tail, -, -, htail⟩ := main_trace_shape env fuel hinit hw
        rcases htail with ⟨-, hexit, -⟩ | ⟨-, hexit, -⟩
        · rw [hexit] at hcode; cases hcode
        · rw [hexit] at hcode
          simp only [Option.some.injEq] at hcode
          exact absurd hcode.symm hne

theorem C6_exit_codes_witness :
    (main envNoWindow 4).exit = some (-1) ∧
    written .cerr (main envNoWindow 4).trace = [.lit "Failed to create window", .endl] ∧
    written .cout (main envNoWindow 4).trace = [] :=
  (C6_exit_codes envNoWindow 4).2.2.1 rfl rfl

/-- C3: in a run in which the window was created, every close-flag check answering
false (one that admits an iteration) is followed by exactly one `glClearColor`, one
`glClear` of the colour buffer, one `glfwSwapBuffers` and one `glfwPollEvents`, in
that order, and then by the next close-flag check; only in a run cut at the bound
may the observed trace end after the `glfwPollEvents`. -/
theorem C3_frame_between_checks (env : Env) (fuel : Nat)
    (hinit : env.glfwInit = true) (hwin : env.glfwCreateWindow ≠ 0)
    (pre post : List Event) (w : Nat)
    (h : (main env fuel).trace = pre ++ .glfwWindowShouldClose w false :: post) :
    w = env.glfwCreateWindow ∧
    ∃ rest,
      post = [.glClearColor ⟨1, 1⟩ ⟨1, 1⟩ ⟨2, 1⟩ ⟨10, 1⟩, .glClear .GL_COLOR_BUFFER_BIT,
              .glfwSwapBuffers env.glfwCreateWindow, .glfwPollEvents] ++ rest ∧
      ((rest = [] ∧ (main env fuel).exit = none) ∨
        ∃ b rest', rest = .glfwWindowShouldClose env.glfwCreateWindow b :: rest') := by
  obtain ⟨n, tail, -, htrace, htail⟩ := main_trace_shape env fuel hinit hwin
  rw [htrace] at h
  obtain ⟨mid, -, hmid⟩ := split_skip (fun e => e.call = .glfwWindowShouldClose)
    (setup env.glfwCreateWindow ++ announce env env.glfwCreateWindow) _ pre post _
    (by simp [setup, announce, Event.call]) h rfl
  have htail' : tail = [] ∨ tail = .glfwWindowShouldClose env.glfwCreateWindow true ::
      cleanup env.glfwCreateWindow := htail.imp (fun x => x.1) (fun x => x.1)
  obtain ⟨m, hw, hpost⟩ := iterations_after_check env.glfwCreateWindow tail htail' n mid w
    post hmid
  refine ⟨hw, iterations env.glfwCreateWindow m ++ tail, hpost, ?_⟩
  rcases iterations_tail_head env.glfwCreateWindow tail htail' m with ⟨he, ht⟩ | hcheck
  · left
    refine ⟨he, ?_⟩
    rcases htail with ⟨-, hexit, -⟩ | ⟨ht', -, -⟩
    · exact hexit
    · rw [ht] at ht'; cases ht'
  · exact Or.inr hcheck

theorem C3_frame_between_checks_witness :
    ∃ rest,
      frame 7 ++ (.glfwWindowShouldClose 7 true :: cleanup 7) =
        [.glClearColor ⟨1, 1⟩ ⟨1, 1⟩ ⟨2, 1⟩ ⟨10, 1⟩, .glClear .GL_COLOR_BUFFER_BIT,
         .glfwSwapBuffers envTwoFrames.glfwCreateWindow, .glfwPollEvents] ++ rest ∧
      ((rest = [] ∧ (main envTwoFrames 5).exit = none) ∨
        ∃ b rest', rest = .glfwWindowShouldClose envTwoFrames.glfwCreateWindow b :: rest') :=
  (C3_frame_between_checks envTwoFrames 5 rfl (by decide)
    (setup 7 ++ announce envTwoFrames 7 ++ (.glfwWindowShouldClose 7 false :: frame 7))
    (frame 7 ++ (.glfwWindowShouldClose 7 true :: cleanup 7)) 7 rfl).2

/-- C4: in a run in which the window was created, the loop makes exactly as many
iterations as there are leading false answers of `glfwWindowShouldClose`: after `n`
false answers and a true one the trace is the bootstrap, `n` iterations, the check
answering true and the cleanup (so `n` clears, swaps and polls and `n + 1` checks);
while every answer is false the loop keeps iterating; whatever the answers, a check
answering true is followed by the cleanup only, and `glfwDestroyWindow` directly
follows a check answering true. -/
theorem C4_loop_stops_at_first_close_request (env : Env) (fuel : Nat)
    (hinit : env.glfwInit = true) (hwin : env.glfwCreateWindow ≠ 0) :
    (∀ n, (∀ i, i < n → env.glfwWindowShouldClose i = false) →
      env.glfwWindowShouldClose n = true → n < fuel →
      (main env fuel).trace = setup env.glfwCreateWindow ++
        announce env env.glfwCreateWindow ++ (iterations env.glfwCreateWindow n ++
          .glfwWindowShouldClose env.glfwCreateWindow true ::
            cleanup env.glfwCreateWindow) ∧
      (main env fuel).exit = some 0 ∧
      calls .glClearColor (main env fuel).trace = n ∧
      calls .glClear (main env fuel).trace = n ∧
      calls .glfwSwapBuffers (main env fuel).trace = n ∧
      calls .glfwPollEvents (main env fuel).trace = n ∧
      calls .glfwWindowShouldClose (main env fuel).trace = n + 1) ∧
    ((∀ i, i < fuel → env.glfwWindowShouldClose i = false) →
      (main env fuel).trace = setup env.glfwCreateWindow ++
        announce env env.glfwCreateWindow ++ iterations env.glfwCreateWindow fuel ∧
      (main env fuel).exit = none) ∧
    (∀ pre w post, (main env fuel).trace = pre ++ .glfwWindowShouldClose w true :: post →
      post = cleanup env.glfwCreateWindow) ∧
    (∀ pre e w post, (main env fuel).trace = pre ++ e :: .glfwDestroyWindow w :: post →
      e = .glfwWindowShouldClose env.glfwCreateWindow true) ∧
    (main env fuel).trace.head? = some (.glfwInit true) := by
  refine ⟨?_, ?_, ?_, ?_, ?_⟩
  · intro n hfalse htrue hn
    have hloop := mainLoop_closed env env.glfwCreateWindow n fuel 0
      (by simpa using hfalse) (by simpa using htrue) hn
    rw [main_of_window env fuel hinit hwin, hloop]
    simp only [if_true]
    refine ⟨by simp, by simp, ?_, ?_, ?_, ?_, ?_⟩ <;>
      simp only [calls_append, calls_iterations] <;>
      simp [calls, setup, announce, frame, cleanup, Event.call]
  · intro hfalse
    have hloop := mainLoop_running env env.glfwCreateWindow fuel 0 (by simpa using hfalse)
    rw [main_of_window env fuel hinit hwin, hloop]
    simp
  · intro pre w post h
    obtain ⟨n, tail, -, htrace, htail⟩ := main_trace_shape env fuel hinit hwin
    rw [htrace, ← List.append_assoc] at h
    obtain ⟨mid, -, hmid⟩ := split_skip (fun e => ∃ w, e = .glfwWindowShouldClose w true)
      _ _ pre post _
      (by
        intro y hy
        rcases mem_before_exit env _ n y hy with h | h | h | h
        · simp [setup] at h; rcases h with rfl | rfl | rfl | rfl | rfl | rfl <;> simp
        · simp [announce] at h
          rcases h with rfl | rfl | rfl | rfl | rfl | rfl | rfl | rfl | rfl <;> simp
        · simp [h]
        · simp [frame] at h; rcases h with rfl | rfl | rfl | rfl <;> simp) h ⟨w, rfl⟩
    rcases htail with ⟨rfl, -, -⟩ | ⟨rfl, -, -⟩
    · cases mid <;> cases hmid
    · cases mid with
      | nil =>
        simp only [List.nil_append, List.cons.injEq] at hmid
        exact hmid.2.symm
      | cons a mid =>
        simp only [List.cons_append, List.cons.injEq] at hmid
        have := mem_of_split hmid.2
        simp [cleanup] at this
  · intro pre e w post h
    obtain ⟨n, tail, -, htrace, htail⟩ := main_trace_shape env fuel hinit hwin
    have h' : (main env fuel).trace = (pre ++ [e]) ++ .glfwDestroyWindow w :: post := by
      rw [h]; simp
    rw [htrace, ← List.append_assoc] at h'
    obtain ⟨mid, hpre, hmid⟩ := split_skip (fun e => e.call = .glfwDestroyWindow)
      _ _ (pre ++ [e]) post _
      (by
        intro y hy
        rcases mem_before_exit env _ n y hy with h | h | h | h
        · simp [setup] at h; rcases h with rfl | rfl | rfl | rfl | rfl | rfl <;>
            simp [Event.call]
        · simp [announce] at h
          rcases h with rfl | rfl | rfl | rfl | rfl | rfl | rfl | rfl | rfl <;>
            simp [Event.call]
        · simp [h, Event.call]
        · simp [frame] at h; rcases h with rfl | rfl | rfl | rfl <;> simp [Event.call]) h' rfl
    rcases htail with ⟨rfl, -, -⟩ | ⟨rfl, -, -⟩
    · cases mid <;> cases hmid
    · cases mid with
      | nil => simp at hmid
      | cons a mid =>
        simp only [List.cons_append, List.cons.injEq] at hmid
        cases mid with
        | nil =>
          rw [← hmid.1] at hpre
          have := List.append_inj_right' hpre rfl
          simpa using this
        | cons b mid =>
          simp only [cleanup, List.cons_append, List.cons.injEq] at hmid
          have := mem_of_split hmid.2.2
          simp at this
  · obtain ⟨n, tail, -, htrace, -⟩ := main_trace_shape env fuel hinit hwin
    rw [htrace]
    rfl

theorem C4_loop_stops_at_first_close_request_witness :
    (main envTwoFrames 5).trace = setup 7 ++ announce envTwoFrames 7 ++
      (iterations 7 2 ++ .glfwWindowShouldClose 7 true :: cleanup 7) ∧
    calls .glfwPollEvents (main envTwoFrames 5).trace = 2 ∧
    calls .glfwWindowShouldClose (main envTwoFrames 5).trace = 3 := by
  have h := (C4_loop_stops_at_first_close_request envTwoFrames 5 rfl (by decide)).1 2
    (by decide) rfl (by decide)
  exact ⟨h.1, h.2.2.2.2.2.1, h.2.2.2.2.2.2⟩

/-- C5: in a run in which the window was created and the close flag is eventually
seen set, once the bound on the checks is large enough `main` leaves the loop and the
trace ends with the check answering true, `glfwDestroyWindow` on the created window,
`glfwTerminate` and the closing message; each of the two release calls occurs exactly
once, and what follows the only `glfwDestroyWindow` is `glfwTerminate` and the closing
message (no loop call). -/
theorem C5_shutdown_once_in_order (env : Env) (hinit : env.glfwInit = true)
    (hwin : env.glfwCreateWindow ≠ 0) (hclose : ∃ n, env.glfwWindowShouldClose n = true) :
    ∃ N, ∀ fuel, N < fuel →
      (main env fuel).exit = some 0 ∧
      (∃ pre, (main env fuel).trace = pre ++
          [.glfwWindowShouldClose env.glfwCreateWindow true,
           .glfwDestroyWindow env.glfwCreateWindow, .glfwTerminate,
           .write .cout (.lit "Window closed."), .write .cout .endl] ∧
        calls .glfwDestroyWindow pre = 0 ∧ calls .glfwTerminate pre = 0) ∧
      calls .glfwDestroyWindow (main env fuel).trace = 1 ∧
      calls .glfwTerminate (main env fuel).trace = 1 ∧
      (∀ pre w post, (main env fuel).trace = pre ++ .glfwDestroyWindow w :: post →
        w = env.glfwCreateWindow ∧
        post = [.glfwTerminate, .write .cout (.lit "Window closed."),
                .write .cout .endl]) := by
  obtain ⟨N, hN⟩ := hclose
  refine ⟨N, fun fuel hfuel => ?_⟩
  obtain ⟨n, -, hmain⟩ := main_of_close_request env fuel hinit hwin ⟨N, hfuel, hN⟩
  rw [hmain]
  refine ⟨rfl, ⟨setup env.glfwCreateWindow ++ announce env env.glfwCreateWindow ++
    iterations env.glfwCreateWindow n, by simp [cleanup], ?_, ?_⟩, ?_, ?_, ?_⟩
  · simp only [calls_append, calls_iterations]
    simp [calls, setup, announce, frame, Event.call]
  · simp only [calls_append, calls_iterations]
    simp [calls, setup, announce, frame, Event.call]
  · simp only [calls_append, calls_iterations]
    simp [calls, setup, announce, frame, cleanup, Event.call]
  · simp only [calls_append, calls_iterations]
    simp [calls, setup, announce, frame, cleanup, Event.call]
  · intro pre w post h
    have h' : (setup env.glfwCreateWindow ++ announce env env.glfwCreateWindow ++
        iterations env.glfwCreateWindow n ++
          [.glfwWindowShouldClose env.glfwCreateWindow true]) ++
        .glfwDestroyWindow env.glfwCreateWindow ::
          [.glfwTerminate, .write .cout (.lit "Window closed."), .write .cout .endl] =
        pre ++ .glfwDestroyWindow w :: post := by
      rw [← h]; simp [cleanup]
    obtain ⟨-, hx, hpost⟩ := split_unique (fun e => e.call = .glfwDestroyWindow) _ _ pre
      post _ _
      (by
        intro y hy
        rw [List.mem_append] at hy
        rcases hy with hy | hy
        · exact (call_before_exit env _ n y hy).1
        · simp at hy; simp [hy, Event.call])
      (by
        intro y hy
        simp at hy
        rcases hy with rfl | rfl | rfl <;> simp [Event.call]) h' rfl
    simp only [Event.glfwDestroyWindow.injEq] at hx
    exact ⟨hx, hpost⟩

theorem C5_shutdown_once_in_order_witness :
    ∃ N, ∀ fuel, N < fuel →
      (main envTwoFrames fuel).exit = some 0 ∧
      calls .glfwDestroyWindow (main envTwoFrames fuel).trace = 1 ∧
      calls .glfwTerminate (main envTwoFrames fuel).trace = 1 := by
  obtain ⟨N, h⟩ := C5_shutdown_once_in_order envTwoFrames rfl (by decide) ⟨2, rfl⟩
  exact ⟨N, fun fuel hf => ⟨(h fuel hf).1, (h fuel hf).2.2.1, (h fuel hf).2.2.2.1⟩⟩

/-- C7: in a run in which the window was created and the close flag is eventually
seen set, once the bound on the checks is large enough `main` returns 0; standard
output receives, in this order and nothing else, the version line, the renderer line
and the line "Window closed."; both information lines are written in a part of the
trace that ends before the first close-flag check; and the closing message is
written after `glfwDestroyWindow` and `glfwTerminate`, which do not occur earlier. -/
theorem C7_scenario_A (env : Env) (hinit : env.glfwInit = true)
    (hwin : env.glfwCreateWindow ≠ 0) (hclose : ∃ n, env.glfwWindowShouldClose n = true) :
    ∃ N, ∀ fuel, N < fuel →
      (main env fuel).exit = some 0 ∧
      written .cout (main env fuel).trace =
        [.lit "OpenGL Version: ", .glString .GL_VERSION (env.glGetString .GL_VERSION),
         .endl,
         .lit "OpenGL Renderer: ", .glString .GL_RENDERER (env.glGetString .GL_RENDERER),
         .endl,
         .lit "Window closed.", .endl] ∧
      (∃ pre b post,
        (main env fuel).trace =
          pre ++ .glfwWindowShouldClose env.glfwCreateWindow b :: post ∧
        calls .glfwWindowShouldClose pre = 0 ∧
        written .cout pre =
          [.lit "OpenGL Version: ", .glString .GL_VERSION (env.glGetString .GL_VERSION),
           .endl,
           .lit "OpenGL Renderer: ",
           .glString .GL_RENDERER (env.glGetString .GL_RENDERER), .endl]) ∧
      (∃ pre, (main env fuel).trace = pre ++
          [.glfwDestroyWindow env.glfwCreateWindow, .glfwTerminate,
           .write .cout (.lit "Window closed."), .write .cout .endl] ∧
        calls .glfwDestroyWindow pre = 0 ∧ calls .glfwTerminate pre = 0 ∧
        written .cout pre =
          [.lit "OpenGL Version: ", .glString .GL_VERSION (env.glGetString .GL_VERSION),
           .endl,
           .lit "OpenGL Renderer: ",
           .glString .GL_RENDERER (env.glGetString .GL_RENDERER), .endl]) := by
  obtain ⟨N, hN⟩ := hclose
  refine ⟨N, fun fuel hfuel => ?_⟩
  obtain ⟨n, -, hmain⟩ := main_of_close_request env fuel hinit hwin ⟨N, hfuel, hN⟩
  rw [hmain]
  refine ⟨rfl, ?_, ?_, ?_⟩
  · simp only [written_append, written_iterations]
    rfl
  · cases n with
    | zero =>
      exact ⟨setup env.glfwCreateWindow ++ announce env env.glfwCreateWindow, true,
        cleanup env.glfwCreateWindow, by simp [iterations], rfl, rfl⟩
    | succ n =>
      exact ⟨setup env.glfwCreateWindow ++ announce env env.glfwCreateWindow, false,
        frame env.glfwCreateWindow ++ (iterations env.glfwCreateWindow n ++
          .glfwWindowShouldClose env.glfwCreateWindow true ::
            cleanup env.glfwCreateWindow), by simp [iterations], rfl, rfl⟩
  · refine ⟨setup env.glfwCreateWindow ++ announce env env.glfwCreateWindow ++
      (iterations env.glfwCreateWindow n ++
        [.glfwWindowShouldClose env.glfwCreateWindow true]), by simp [cleanup], ?_, ?_, ?_⟩
    · simp only [calls_append, calls_iterations]
      simp [calls, setup, announce, frame, Event.call]
    · simp only [calls_append, calls_iterations]
      simp [calls, setup, announce, frame, Event.call]
    · simp only [written_append, written_iterations]
      rfl

theorem C7_scenario_A_witness :
    ∃ N, ∀ fuel, N < fuel →
      (main envTwoFrames fuel).exit = some 0 ∧
      written .cout (main envTwoFrames fuel).trace =
        [.lit "OpenGL Version: ", .glString .GL_VERSION "4.1", .endl,
         .lit "OpenGL Renderer: ", .glString .GL_RENDERER "Apple M1", .endl,
         .lit "Window closed.", .endl] := by
  obtain ⟨N, h⟩ := C7_scenario_A envTwoFrames rfl (by decide) ⟨2, rfl⟩
  exact ⟨N, fun fuel hf => ⟨(h fuel hf).1, (h fuel hf).2.1⟩⟩

/-- C8, as stated for every run, fails: in a run in which `glfwInit` fails no window
hint is issued and `glfwCreateWindow` is not called at all, so it is not called
exactly once. -/
theorem C8_counterexample :
    envInitFails.glfwInit = false ∧
    ¬ (calls .glfwCreateWindow (main envInitFails 1).trace = 1 ∧
       (main envInitFails 1).trace.filter (fun e => e.call = .glfwWindowHint) =
        [.glfwWindowHint .GLFW_CONTEXT_VERSION_MAJOR (.int 4),
         .glfwWindowHint .GLFW_CONTEXT_VERSION_MINOR (.int 1),
         .glfwWindowHint .GLFW_OPENGL_PROFILE .GLFW_OPENGL_CORE_PROFILE,
         .glfwWindowHint .GLFW_OPENGL_FORWARD_COMPAT .GL_TRUE]) := by
  refine ⟨rfl, ?_⟩
  rintro ⟨h, -⟩
  revert h
  decide

/-- C8, amended: in every run in which `glfwInit` succeeds the trace starts with
`glfwInit`, the four window hints (context version major 4, minor 1, core profile,
forward compatible) and one call of `glfwCreateWindow` with width 800, height 600,
title "Arc Engine", no monitor and no shared context, in this order; no further
`glfwInit`, hint or `glfwCreateWindow` follows; when the window was created the next
call is the only `glfwMakeContextCurrent`, on that window, and otherwise there is
none.  In a run in which `glfwInit` fails no hint is issued and neither
`glfwCreateWindow` nor `glfwMakeContextCurrent` is called. -/
theorem C8_bootstrap_order (env : Env) (fuel : Nat) :
    (env.glfwInit = true →
      ∃ rest, (main env fuel).trace =
        [.glfwInit true,
         .glfwWindowHint .GLFW_CONTEXT_VERSION_MAJOR (.int 4),
         .glfwWindowHint .GLFW_CONTEXT_VERSION_MINOR (.int 1),
         .glfwWindowHint .GLFW_OPENGL_PROFILE .GLFW_OPENGL_CORE_PROFILE,
         .glfwWindowHint .GLFW_OPENGL_FORWARD_COMPAT .GL_TRUE,
         .glfwCreateWindow 800 600 "Arc Engine" 0 0 env.glfwCreateWindow] ++ rest ∧
        calls .glfwInit rest = 0 ∧ calls .glfwWindowHint rest = 0 ∧
        calls .glfwCreateWindow rest = 0 ∧
        (env.glfwCreateWindow ≠ 0 →
          rest.head? = some (.glfwMakeContextCurrent env.glfwCreateWindow) ∧
          calls .glfwMakeContextCurrent rest = 1) ∧
        (env.glfwCreateWindow = 0 → calls .glfwMakeContextCurrent rest = 0)) ∧
    (env.glfwInit = false →
      calls .glfwWindowHint (main env fuel).trace = 0 ∧
      calls .glfwCreateWindow (main env fuel).trace = 0 ∧
      calls .glfwMakeContextCurrent (main env fuel).trace = 0) ∧
    (∀ width height title monitor share result,
      .glfwCreateWindow width height title monitor share result ∈ (main env fuel).trace →
      0 < width ∧ 0 < height ∧ title ≠ "" ∧ monitor = 0 ∧ share = 0) := by
  refine ⟨?_, ?_, ?_⟩
  · intro hinit
    by_cases hw : env.glfwCreateWindow = 0
    · rw [main_of_window_failed env fuel hinit hw]
      refine ⟨[.write .cerr (.lit "Failed to create window"), .write .cerr .endl,
        .glfwTerminate], by rw [hw]; rfl, rfl, rfl, rfl, fun h => absurd hw h, fun _ => rfl⟩
    · obtain ⟨n, tail, -, htrace, htail⟩ := main_trace_shape env fuel hinit hw
      rw [htrace]
      refine ⟨announce env env.glfwCreateWindow ++
        (iterations env.glfwCreateWindow n ++ tail), by simp [setup], ?_, ?_, ?_,
        fun _ => ⟨rfl, ?_⟩, fun h => absurd h hw⟩ <;>
      rcases htail with ⟨rfl, -, -⟩ | ⟨rfl, -, -⟩ <;>
      simp only [calls_append, calls_iterations] <;>
      simp [calls, announce, frame, cleanup, Event.call]
  · intro hinit
    rw [main_of_init_failed env fuel hinit]
    exact ⟨rfl, rfl, rfl⟩
  · intro width height title monitor share result hmem
    have hsetup : ∀ w, .glfwCreateWindow width height title monitor share result ∈ setup w →
        0 < width ∧ 0 < height ∧ title ≠ "" ∧ monitor = 0 ∧ share = 0 := by
      intro w h
      simp only [setup, List.mem_cons, List.mem_singleton, List.not_mem_nil, or_false,
        Event.glfwCreateWindow.injEq, reduceCtorEq, false_or] at h
      obtain ⟨rfl, rfl, rfl, rfl, rfl, -⟩ := h
      exact ⟨by decide, by decide, by decide, rfl, rfl⟩
    cases hinit : env.glfwInit with
    | false =>
      rw [main_of_init_failed env fuel hinit] at hmem
      simp at hmem
    | true =>
      by_cases hw : env.glfwCreateWindow = 0
      · rw [main_of_window_failed env fuel hinit hw] at hmem
        simp only [List.mem_append, List.mem_cons, List.mem_singleton, List.not_mem_nil,
          or_false, reduceCtorEq] at hmem
        exact hsetup 0 hmem
      · obtain ⟨n, tail, -, htrace, htail⟩ := main_trace_shape env fuel hinit hw
        rw [htrace] at hmem
        simp only [List.mem_append] at hmem
        rcases hmem with (h | h) | h | h
        · exact hsetup _ h
        · simp [announce] at h
        · rcases mem_iterations _ _ _ h with h | h
          · cases h
          · simp [frame] at h
        · rcases htail with ⟨rfl, -, -⟩ | ⟨rfl, -, -⟩
          · simp at h
          · simp [cleanup] at h

theorem C8_bootstrap_order_witness :
    envTwoFrames.glfwInit = true ∧
    (∃ rest, (main envTwoFrames 5).trace =
      [.glfwInit true,
       .glfwWindowHint .GLFW_CONTEXT_VERSION_MAJOR (.int 4),
       .glfwWindowHint .GLFW_CONTEXT_VERSION_MINOR (.int 1),
       .glfwWindowHint .GLFW_OPENGL_PROFILE .GLFW_OPENGL_CORE_PROFILE,
       .glfwWindowHint .GLFW_OPENGL_FORWARD_COMPAT .GL_TRUE,
       .glfwCreateWindow 800 600 "Arc Engine" 0 0 envTwoFrames.glfwCreateWindow] ++ rest ∧
      calls .glfwInit rest = 0 ∧ calls .glfwWindowHint rest = 0 ∧
      calls .glfwCreateWindow rest = 0 ∧
      (envTwoFrames.glfwCreateWindow ≠ 0 →
        rest.head? = some (.glfwMakeContextCurrent envTwoFrames.glfwCreateWindow) ∧
        calls .glfwMakeContextCurrent rest = 1) ∧
      (envTwoFrames.glfwCreateWindow = 0 → calls .glfwMakeContextCurrent rest = 0)) ∧
    envNoWindow.glfwInit = true ∧
    (∃ rest, (main envNoWindow 5).trace =
      [.glfwInit true,
       .glfwWindowHint .GLFW_CONTEXT_VERSION_MAJOR (.int 4),
       .glfwWindowHint .GLFW_CONTEXT_VERSION_MINOR (.int 1),
       .glfwWindowHint .GLFW_OPENGL_PROFILE .GLFW_OPENGL_CORE_PROFILE,
       .glfwWindowHint .GLFW_OPENGL_FORWARD_COMPAT .GL_TRUE,
       .glfwCreateWindow 800 600 "Arc Engine" 0 0 envNoWindow.glfwCreateWindow] ++ rest ∧
      calls .glfwInit rest = 0 ∧ calls .glfwWindowHint rest = 0 ∧
      calls .glfwCreateWindow rest = 0 ∧
      (envNoWindow.glfwCreateWindow ≠ 0 →
        rest.head? = some (.glfwMakeContextCurrent envNoWindow.glfwCreateWindow) ∧
        calls .glfwMakeContextCurrent rest = 1) ∧
      (envNoWindow.glfwCreateWindow = 0 → calls .glfwMakeContextCurrent rest = 0)) ∧
    envInitFails.glfwInit = false ∧
    calls .glfwWindowHint (main envInitFails 1).trace = 0 ∧
    calls .glfwCreateWindow (main envInitFails 1).trace = 0 ∧
    calls .glfwMakeContextCurrent (main envInitFails 1).trace = 0 ∧
    (0 : Int) < 800 ∧ (0 : Int) < 600 ∧ "Arc Engine" ≠ "" := by
  have hmem : Event.glfwCreateWindow 800 600 "Arc Engine" 0 0 7 ∈
      (main envTwoFrames 5).trace := by
    rw [show (main envTwoFrames 5).trace = setup 7 ++ (announce envTwoFrames 7 ++
      (iterations 7 2 ++ .glfwWindowShouldClose 7 true :: cleanup 7)) from rfl]
    exact List.mem_append_left _ (by simp [setup])
  have hargs := (C8_bootstrap_order envTwoFrames 5).2.2 800 600 "Arc Engine" 0 0 7 hmem
  have hfail := (C8_bootstrap_order envInitFails 1).2.1 rfl
  exact ⟨rfl, (C8_bootstrap_order envTwoFrames 5).1 rfl,
    rfl, (C8_bootstrap_order envNoWindow 5).1 rfl,
    rfl, hfail.1, hfail.2.1, hfail.2.2, hargs.1, hargs.2.1, hargs.2.2.1⟩

/-- C10: in every run, a call that takes a window pointer (`glfwMakeContextCurrent`,
`glfwWindowShouldClose`, `glfwSwapBuffers`, `glfwDestroyWindow`) receives the non-null
pointer returned by `glfwCreateWindow`, after that call and with no
`glfwDestroyWindow` before it; a graphics call (`glGetString`, `glClearColor`,
`glClear`) is made after `glfwMakeContextCurrent` on that window and with no
`glfwDestroyWindow` before it; and `glfwCreateWindow` is called at most once. -/
theorem C10_window_handle_scope (env : Env) (fuel : Nat) :
    (∀ pre e post h, (main env fuel).trace = pre ++ e :: post → e.window? = some h →
      h ≠ 0 ∧ h = env.glfwCreateWindow ∧
      .glfwCreateWindow 800 600 "Arc Engine" 0 0 h ∈ pre ∧
      calls .glfwDestroyWindow pre = 0) ∧
    (∀ pre e post, (main env fuel).trace = pre ++ e :: post → e.isGraphics = true →
      .glfwMakeContextCurrent env.glfwCreateWindow ∈ pre ∧
      calls .glfwDestroyWindow pre = 0) ∧
    calls .glfwCreateWindow (main env fuel).trace ≤ 1 := by
  have key : Before (Scoped env.glfwCreateWindow) [] (main env fuel).trace ∧
      calls .glfwCreateWindow (main env fuel).trace ≤ 1 := by
    cases hinit : env.glfwInit with
    | false =>
      rw [main_of_init_failed env fuel hinit]
      refine ⟨?_, by decide⟩
      have := before_quiet env.glfwCreateWindow [] [.glfwInit false,
        .write .cerr (.lit "Failed to init GLFW"), .write .cerr .endl] []
        (by
          intro e he
          simp at he
          rcases he with rfl | rfl | rfl <;> exact ⟨rfl, rfl⟩)
        (before_nil _ _)
      simpa using this
    | true =>
      by_cases hw : env.glfwCreateWindow = 0
      · rw [main_of_window_failed env fuel hinit hw]
        refine ⟨?_, by decide⟩
        have := before_quiet env.glfwCreateWindow [] (setup 0 ++
          [.write .cerr (.lit "Failed to create window"), .write .cerr .endl,
           .glfwTerminate]) []
          (by
            intro e he
            simp [setup] at he
            rcases he with rfl | rfl | rfl | rfl | rfl | rfl | rfl | rfl | rfl <;>
              exact ⟨rfl, rfl⟩)
          (before_nil _ _)
        simpa using this
      · obtain ⟨n, tail, -, htrace, htail⟩ := main_trace_shape env fuel hinit hw
        have htail' : tail = [] ∨ tail = .glfwWindowShouldClose env.glfwCreateWindow true ::
            cleanup env.glfwCreateWindow := htail.imp (fun x => x.1) (fun x => x.1)
        rw [htrace]
        constructor
        · have hlive : Live env.glfwCreateWindow
              ([] ++ setup env.glfwCreateWindow ++
                [.glfwMakeContextCurrent env.glfwCreateWindow]) :=
            ⟨by simp [setup], by simp, by simp [calls, setup, Event.call]⟩
          have hloop := before_live env.glfwCreateWindow hw tail
            (before_tail env.glfwCreateWindow hw tail htail')
            ((announce env env.glfwCreateWindow).tail ++ iterations env.glfwCreateWindow n)
            _
            (by
              intro e he
              rw [List.mem_append] at he
              rcases he with he | he
              · simp [announce] at he
                rcases he with rfl | rfl | rfl | rfl | rfl | rfl | rfl | rfl <;>
                  simp [Event.call, Event.window?]
              · rcases mem_iterations _ _ _ he with rfl | he
                · simp [Event.call, Event.window?]
                · simp [frame] at he
                  rcases he with rfl | rfl | rfl | rfl <;>
                    simp [Event.call, Event.window?])
            hlive
          have hmake : Before (Scoped env.glfwCreateWindow)
              ([] ++ setup env.glfwCreateWindow)
              (.glfwMakeContextCurrent env.glfwCreateWindow ::
                ((announce env env.glfwCreateWindow).tail ++
                  iterations env.glfwCreateWindow n ++ tail)) := by
            refine before_cons ⟨?_, ?_⟩ hloop
            · intro h hh
              simp only [Event.window?, Option.some.injEq] at hh
              subst hh
              exact ⟨hw, rfl, by simp [setup], by simp [calls, setup, Event.call]⟩
            · intro hg
              cases hg
          have := before_quiet env.glfwCreateWindow _ (setup env.glfwCreateWindow) []
            (by
              intro e he
              simp [setup] at he
              rcases he with rfl | rfl | rfl | rfl | rfl | rfl <;> exact ⟨rfl, rfl⟩)
            hmake
          simpa [announce] using this
        · rcases htail' with rfl | rfl <;>
          simp only [calls_append, calls_iterations] <;>
          simp [calls, setup, announce, frame, cleanup, Event.call]
  refine ⟨?_, ?_, key.2⟩
  · intro pre e post h htrace hh
    have := (key.1 pre e post htrace).1 h hh
    simpa using this
  · intro pre e post htrace hg
    have := (key.1 pre e post htrace).2 hg
    simpa using this

theorem C10_window_handle_scope_witness :
    (7 : Nat) ≠ 0 ∧ 7 = envTwoFrames.glfwCreateWindow ∧
    Event.glfwCreateWindow 800 600 "Arc Engine" 0 0 7 ∈
      setup 7 ++ announce envTwoFrames 7 ++ iterations 7 1 ∧
    calls .glfwDestroyWindow (setup 7 ++ announce envTwoFrames 7 ++ iterations 7 1) = 0 :=
  (C10_window_handle_scope envTwoFrames 5).1
    (setup 7 ++ announce envTwoFrames 7 ++ iterations 7 1)
    (Event.glfwWindowShouldClose 7 false)
    (frame 7 ++ (Event.glfwWindowShouldClose 7 true :: cleanup 7))
    7 rfl rfl

end Arc
